import Mathlib

/-!
Shallow embedding of the OAuth/proxy backend of
`integration_backend` (FastAPI application `app/main.py` and the
service layer `src/api/services/{jira,confluence}.py`), together with
proofs checking the natural-language specification against it.

Conventions used throughout:
* Python `float` timestamps (`time.time()`) are embedded as `ℚ`.
* JSON values (`resp.json()`, dict payloads) are embedded as the
  inductive `Json` below; JSON numbers are embedded as `Int` (the only
  numbers the relevant code manipulates are integral).
* Python dicts are embedded as association lists with first-match
  lookup; dict deletion removes every entry with the key (identical to
  dict behaviour on the duplicate-free lists dicts produce).
* Fallible code returns `Option`/`Except`; network effects are made
  explicit by passing the upstream HTTP outcome as an argument and by
  returning a flag recording whether the outbound call was attempted.
-/

/-- JSON values as produced by `resp.json()` / passed to `json=` payloads. -/
inductive Json where
  | null
  | bool (b : Bool)
  | num (n : Int)
  | str (s : String)
  | arr (l : List Json)
  | obj (fields : List (String × Json))

/-- Python `dict.get(k)` on a JSON object: first matching key, else `None`. -/
def Json.get (j : Json) (k : String) : Option Json :=
  match j with
  | .obj fields => fields.lookup k
  | _ => none

/-- Python truthiness (`bool(x)`) of a decoded JSON value. -/
def Json.pyTruthy : Json → Bool
  | .null => false
  | .bool b => b
  | .num n => n != 0
  | .str s => s != ""
  | .arr l => !l.isEmpty
  | .obj fields => !fields.isEmpty

/-- Python truthiness of an optional query/env string (`None` and `""` are falsy). -/
def optTruthy : Option String → Bool
  | none => false
  | some s => s != ""

/-! ## State Store (`app/main.py` lines 168-202)

`_state_store: Dict[str, float]` maps a CSRF state token to its expiry
timestamp. -/

/-- The in-memory `_state_store` dict: token ↦ expiry timestamp. -/
abbrev StateStore := List (String × ℚ)

/-- `STATE_TTL_SECONDS = 600` (10 minutes). -/
def STATE_TTL_SECONDS : ℚ := 600

/-- `_cleanup_state_store()`: remove every entry whose expiry has passed
(`exp < now`). -/
def cleanupStateStore (now : ℚ) (s : StateStore) : StateStore :=
  s.filter fun e => !decide (e.2 < now)

/-- Python `dict.pop(token, None)`: remove the entry keyed `token`. -/
def storePop (k : String) (s : StateStore) : StateStore :=
  s.filter fun e => e.1 != k

/-- Python `_state_store[token] = v`: record the binding for `token`. -/
def storeInsert (k : String) (v : ℚ) (s : StateStore) : StateStore :=
  (k, v) :: storePop k s

/-- `_new_state()`: record a freshly generated token with expiry
`now + STATE_TTL_SECONDS` and return it.  The random draw
(`secrets.token_urlsafe(24)`) is passed in as `token`. -/
def newState (token : String) (now : ℚ) (s : StateStore) : String × StateStore :=
  (token, storeInsert token (now + STATE_TTL_SECONDS) s)

/-- `_validate_state(token)`: validate a provided state token and consume
it if valid.  Returns the boolean result together with the state store
left behind by the call. -/
def validateState (token : Option String) (now : ℚ) (s : StateStore) : Bool × StateStore :=
  if !optTruthy token then (false, s)
  else
    let t := token.getD ""
    let s1 := cleanupStateStore now s
    match s1.lookup t with
    | none => (false, s1)
    | some exp =>
      if exp < now then (false, storePop t s1)
      else (true, storePop t s1)

/-! Helper lemmas about the store operations. -/

/-- Looking up a key that no entry carries yields `none`. -/
theorem lookup_eq_none_of_keys_ne {t : String} :
    ∀ {l : StateStore}, (∀ e ∈ l, e.1 ≠ t) → l.lookup t = none := by
  intro l
  induction l with
  | nil => intro _; rfl
  | cons e rest ih =>
    intro h
    obtain ⟨k, v⟩ := e
    have he : k ≠ t := h (k, v) (List.mem_cons_self (k, v) rest)
    have hbeq : (t == k) = false := by
      simp [beq_iff_eq]
      exact fun hx => he hx.symm
    simp only [List.lookup, hbeq]
    exact ih fun x hx => h x (List.mem_cons_of_mem (k, v) hx)

/-- No entry of `storePop t s` carries the key `t`. -/
theorem storePop_keys_ne (t : String) (s : StateStore) :
    ∀ e ∈ storePop t s, e.1 ≠ t := by
  intro e he
  rw [storePop, List.mem_filter] at he
  simpa [bne_iff_ne] using he.2

/-- `cleanupStateStore` only keeps entries of the original store. -/
theorem mem_of_mem_cleanup {now : ℚ} {s : StateStore} :
    ∀ e ∈ cleanupStateStore now s, e ∈ s := by
  intro e he
  rw [cleanupStateStore, List.mem_filter] at he
  exact he.1

/-- C1: a CSRF state token validates at most once.  If `_validate_state`
returns true for a token (consuming it), an immediately subsequent call
with the same token — indeed any later call, at any current time —
returns false. -/
theorem state_token_validates_at_most_once
    (t : String) (now now' : ℚ) (s : StateStore)
    (h : (validateState (some t) now s).1 = true) :
    (validateState (some t) now' (validateState (some t) now s).2).1 = false := by
  unfold validateState at h ⊢
  by_cases ht : t = ""
  · subst ht; simp [optTruthy] at h
  · have htr : optTruthy (some t) = true := by simp [optTruthy]; exact ht
    simp only [htr, Bool.not_true, Bool.false_eq_true, if_false, Option.getD_some] at h ⊢
    rcases hl : (cleanupStateStore now s).lookup t with _ | exp
    · rw [hl] at h
      simp at h
    · rw [hl] at h
      dsimp only at h ⊢
      by_cases hlt : exp < now
      · rw [if_pos hlt] at h
        simp at h
      · rw [if_neg hlt] at h ⊢
        dsimp only
        have hkeys : ∀ e ∈ cleanupStateStore now' (storePop t (cleanupStateStore now s)), e.1 ≠ t := by
          intro e he
          exact storePop_keys_ne t _ e (mem_of_mem_cleanup e he)
        rw [lookup_eq_none_of_keys_ne hkeys]

/-- Witness for C1 at a concrete store: the token "tok" with expiry 1000
validates at time 500, and a second validation at the same time fails. -/
theorem state_token_validates_at_most_once_witness :
    (validateState (some "tok") 500 [("tok", 1000)]).1 = true ∧
    (validateState (some "tok") 500 (validateState (some "tok") 500 [("tok", 1000)]).2).1 = false := by
  refine ⟨by decide, ?_⟩
  exact state_token_validates_at_most_once "tok" 500 500 [("tok", 1000)] (by decide)

/-- Two entries sharing a key in a duplicate-free-keyed store carry the
same value (the dict invariant). -/
theorem nodup_keys_value_unique {k : String} {v1 v2 : ℚ} :
    ∀ {l : StateStore}, (l.map Prod.fst).Nodup →
      (k, v1) ∈ l → (k, v2) ∈ l → v1 = v2 := by
  intro l
  induction l with
  | nil => intro _ h1; exact absurd h1 (List.not_mem_nil _)
  | cons e rest ih =>
    intro hnd h1 h2
    obtain ⟨ek, ev⟩ := e
    rw [List.map_cons, List.nodup_cons] at hnd
    obtain ⟨hknotin, hndrest⟩ := hnd
    rcases List.mem_cons.mp h1 with h1h | h1t <;> rcases List.mem_cons.mp h2 with h2h | h2t
    · injection h1h with hk1 hv1
      injection h2h with hk2 hv2
      rw [hv1, hv2]
    · injection h1h with hk1 hv1
      rw [← hk1] at hknotin
      exact absurd (List.mem_map_of_mem Prod.fst h2t) hknotin
    · injection h2h with hk2 hv2
      rw [← hk2] at hknotin
      exact absurd (List.mem_map_of_mem Prod.fst h1t) hknotin
    · exact ih hndrest h1t h2t

/-- C7: a state token whose recorded expiry is earlier than the current
time fails validation even though it is present in the store (the
opportunistic cleanup sweep removes it before the lookup). -/
theorem expired_state_token_fails_validation
    (t : String) (now exp : ℚ) (s : StateStore)
    (hnodup : (s.map Prod.fst).Nodup)
    (hmem : (t, exp) ∈ s) (hexp : exp < now) :
    (validateState (some t) now s).1 = false := by
  unfold validateState
  by_cases ht : t = ""
  · simp [ht, optTruthy]
  · have htr : optTruthy (some t) = true := by simp [optTruthy]; exact ht
    simp only [htr, Bool.not_true, Bool.false_eq_true, if_false, Option.getD_some]
    have hkeys : ∀ e ∈ cleanupStateStore now s, e.1 ≠ t := by
      intro e he hek
      obtain ⟨ek, ev⟩ := e
      rw [cleanupStateStore, List.mem_filter] at he
      obtain ⟨hes, hkeep⟩ := he
      simp at hek
      subst hek
      have hnlt : ¬ (ev < now) := by simpa using hkeep
      have hveq : ev = exp := nodup_keys_value_unique hnodup hes hmem
      exact hnlt (hveq ▸ hexp)
    rw [lookup_eq_none_of_keys_ne hkeys]

/-- Witness for C7: the token "old" with expiry 100 is present in the
store but fails validation at time 500 (expiry 100 < 500). -/
theorem expired_state_token_fails_validation_witness :
    ("old", (100 : ℚ)) ∈ ([("old", (100 : ℚ))] : StateStore) ∧
    (100 : ℚ) < 500 ∧
    (validateState (some "old") 500 [("old", 100)]).1 = false := by
  refine ⟨by decide, by norm_num, ?_⟩
  exact expired_state_token_fails_validation "old" 500 100 [("old", 100)]
    (by decide) (by decide) (by norm_num)

/-! ## Atlassian login endpoint (`app/main.py` lines 205-259)

`atlassian_login` builds the authorization redirect.  The random draw of
`secrets.token_urlsafe(24)` is made explicit: the 24 random bytes are an
argument, and `tokenUrlsafe` performs the URL-safe base64 encoding that
`secrets.token_urlsafe` applies to them. -/

/-- The URL-safe base64 alphabet used by `secrets.token_urlsafe`. -/
def base64Alphabet : List Char :=
  ['A','B','C','D','E','F','G','H','I','J','K','L','M','N','O','P','Q','R','S','T','U','V','W','X','Y','Z',
   'a','b','c','d','e','f','g','h','i','j','k','l','m','n','o','p','q','r','s','t','u','v','w','x','y','z',
   '0','1','2','3','4','5','6','7','8','9','-','_']

/-- Character of the URL-safe base64 alphabet at index `n % 64`. -/
def base64Char (n : Nat) : Char := base64Alphabet.getD (n % 64) 'A'

/-- Encode one 3-byte group into 4 base64url characters. -/
def base64Chunk (a b c : Nat) : List Char :=
  let n := (a % 256) * 65536 + (b % 256) * 256 + (c % 256)
  [base64Char (n / 262144), base64Char (n / 4096), base64Char (n / 64), base64Char n]

/-- URL-safe base64 encoding without padding, as `base64.urlsafe_b64encode`
followed by stripping `=` produces. -/
def base64urlEncode : List Nat → List Char
  | [] => []
  | [a] => (base64Chunk a 0 0).take 2
  | [a, b] => (base64Chunk a b 0).take 3
  | a :: b :: c :: rest => base64Chunk a b c ++ base64urlEncode rest

/-- `secrets.token_urlsafe` applied to the given random bytes. -/
def tokenUrlsafe (bytes : List Nat) : String := ⟨base64urlEncode bytes⟩

/-- Characters `urllib`-style percent-encoding leaves unescaped
(ALWAYS_SAFE: letters, digits, `_.-~`). -/
def isUnreservedChar (c : Char) : Bool :=
  c.isAlphanum || c == '-' || c == '.' || c == '_' || c == '~'

/-- Uppercase hexadecimal digits. -/
def hexDigitChars : List Char :=
  ['0','1','2','3','4','5','6','7','8','9','A','B','C','D','E','F']

/-- Hexadecimal digit for `n % 16`. -/
def hexDigit (n : Nat) : Char := hexDigitChars.getD (n % 16) '0'

/-- Percent-encode a single character (ASCII model of `urllib.parse.quote`
with no safe characters, as `urlencode` applies to keys and values;
multi-byte UTF-8 expansion is not modelled — every string involved here
is ASCII). -/
def percentEncodeChar (c : Char) : List Char :=
  if isUnreservedChar c then [c]
  else ['%', hexDigit (c.toNat / 16), hexDigit c.toNat]

/-- Percent-encode a character list. -/
def percentEncodeL (l : List Char) : List Char :=
  (l.map percentEncodeChar).flatten

/-- Percent-encode a string. -/
def percentEncode (s : String) : String := ⟨percentEncodeL s.data⟩

/-- One `key=value` query component with both sides percent-encoded. -/
def renderPairChars (p : String × String) : List Char :=
  percentEncodeL p.1.data ++ '=' :: percentEncodeL p.2.data

/-- Join character lists with a separator character. -/
def joinChar (sep : Char) : List (List Char) → List Char
  | [] => []
  | [x] => x
  | x :: y :: rest => x ++ sep :: joinChar sep (y :: rest)

/-- The query string `str(httpx.QueryParams(params))` builds: the
`key=value` components joined with `&`. -/
def renderQueryChars (ps : List (String × String)) : List Char :=
  joinChar '&' (ps.map renderPairChars)

/-- The rendered query string. -/
def renderQuery (ps : List (String × String)) : String := ⟨renderQueryChars ps⟩

/-- HTTP response bodies the handlers produce (`HTMLResponse`,
`JSONResponse`, `RedirectResponse`). -/
inductive Body where
  | html (content : String)
  | json (content : Json)
  | redirect (location : String)

/-- An HTTP response: status code plus body. -/
structure Response where
  status : Nat
  body : Body

/-- The `ATLASSIAN_*` environment configuration (each entry `None` when
the variable is unset). -/
structure OAuthConfig where
  clientId : Option String
  clientSecret : Option String
  redirectUri : Option String

/-- The scope list requested by `atlassian_login`. -/
def atlassianScopes : List String :=
  ["offline_access",
   "read:jira-user",
   "read:jira-work",
   "write:jira-work",
   "read:confluence-space.summary",
   "read:confluence-content.all",
   "write:confluence-content",
   "read:confluence-props",
   "read:me"]

/-- The Atlassian Cloud OAuth 2.0 authorize endpoint. -/
def atlassianAuthorizeUrl : String := "https://auth.atlassian.com/authorize"

/-- `atlassian_login()`: validate configuration, issue a fresh state
token, build the authorization URL and redirect (302). -/
def atlassianLogin (cfg : OAuthConfig) (rand : List Nat) (now : ℚ) (store : StateStore) :
    Response × StateStore :=
  if !optTruthy cfg.clientId || !optTruthy cfg.redirectUri then
    ({ status := 500,
       body := .json (.obj
         [("error", .str "Server misconfiguration"),
          ("detail", .str "ATLASSIAN_CLIENT_ID and ATLASSIAN_REDIRECT_URI must be set in environment.")]) },
     store)
  else
    let scopeParam := String.intercalate " " atlassianScopes
    let stateStore' := newState (tokenUrlsafe rand) now store
    let params : List (String × String) :=
      [("audience", "api.atlassian.com"),
       ("client_id", cfg.clientId.getD ""),
       ("scope", scopeParam),
       ("redirect_uri", cfg.redirectUri.getD ""),
       ("response_type", "code"),
       ("prompt", "consent"),
       ("state", stateStore'.1)]
    let url := atlassianAuthorizeUrl ++ "?" ++ renderQuery params
    ({ status := 302, body := .redirect url }, stateStore'.2)

/-! Observation functions used to state what the redirect location looks
like: a tiny URL parser for `scheme://host/path?query` shapes. -/

/-- Scheme of a URL: everything before the first `:`. -/
def urlSchemeOf (u : String) : String :=
  ⟨u.data.takeWhile (fun c => c != ':')⟩

/-- Host of a URL: between `://` and the next `/`. -/
def urlHostOf (u : String) : String :=
  ⟨((u.data.dropWhile (fun c => c != ':')).drop 3).takeWhile (fun c => c != '/')⟩

/-- Path of a URL: from the `/` after the host up to the `?`. -/
def urlPathOf (u : String) : String :=
  ⟨(((u.data.dropWhile (fun c => c != ':')).drop 3).dropWhile (fun c => c != '/')).takeWhile (fun c => c != '?')⟩

/-- Query characters of a URL: everything after the first `?`. -/
def urlQueryCharsOf (u : String) : List Char :=
  (u.data.dropWhile (fun c => c != '?')).drop 1

/-- Split a character list on a separator character. -/
def splitOnCharList (sep : Char) : List Char → List (List Char)
  | [] => [[]]
  | c :: rest =>
    match splitOnCharList sep rest with
    | [] => [[]]
    | cur :: parts => if c = sep then [] :: cur :: parts else (c :: cur) :: parts

/-- Parse a query string back into its (still percent-encoded) pairs. -/
def parseQueryChars (l : List Char) : List (String × String) :=
  (splitOnCharList '&' l).map fun piece =>
    (⟨piece.takeWhile (fun c => c != '=')⟩, ⟨(piece.dropWhile (fun c => c != '=')).drop 1⟩)

/-- Query pairs of a URL. -/
def queryPairsOfUrl (u : String) : List (String × String) :=
  parseQueryChars (urlQueryCharsOf u)

/-! Lemmas about the encoders and the query parser. -/

/-- `hexDigit` always lands in the hex alphabet. -/
theorem hexDigit_mem (n : Nat) : hexDigit n ∈ hexDigitChars := by
  have h : n % 16 < hexDigitChars.length := by
    have : n % 16 < 16 := Nat.mod_lt _ (by norm_num)
    simpa [hexDigitChars] using this
  rw [hexDigit, List.getD_eq_getElem _ _ h]
  exact List.getElem_mem h

/-- `base64Char` always lands in the base64url alphabet. -/
theorem base64Char_mem (n : Nat) : base64Char n ∈ base64Alphabet := by
  have h : n % 64 < base64Alphabet.length := by
    have : n % 64 < 64 := Nat.mod_lt _ (by norm_num)
    simpa [base64Alphabet] using this
  rw [base64Char, List.getD_eq_getElem _ _ h]
  exact List.getElem_mem h

/-- Every character of a 3-byte group encoding is in the alphabet. -/
theorem base64Chunk_mem (a b c : Nat) : ∀ x ∈ base64Chunk a b c, x ∈ base64Alphabet := by
  intro x hx
  simp only [base64Chunk, List.mem_cons, List.not_mem_nil, or_false] at hx
  rcases hx with h | h | h | h <;> (subst h; exact base64Char_mem _)

/-- Every character the base64url encoder emits is in the alphabet. -/
theorem base64urlEncode_mem : ∀ (l : List Nat), ∀ c ∈ base64urlEncode l, c ∈ base64Alphabet
  | [] => by intro c hc; simp [base64urlEncode] at hc
  | [a] => by
    intro c hc
    rw [base64urlEncode] at hc
    exact base64Chunk_mem a 0 0 c (List.take_subset 2 _ hc)
  | [a, b] => by
    intro c hc
    rw [base64urlEncode] at hc
    exact base64Chunk_mem a b 0 c (List.take_subset 3 _ hc)
  | a :: b :: c' :: rest => by
    intro c hc
    rw [base64urlEncode] at hc
    rcases List.mem_append.mp hc with h | h
    · exact base64Chunk_mem a b c' c h
    · exact base64urlEncode_mem rest c h

/-- The base64url encoding is at least as long as its input. -/
theorem base64urlEncode_length : ∀ (l : List Nat), l.length ≤ (base64urlEncode l).length
  | [] => by simp [base64urlEncode]
  | [a] => by simp [base64urlEncode, base64Chunk]
  | [a, b] => by simp [base64urlEncode, base64Chunk]
  | a :: b :: c :: rest => by
    have ih := base64urlEncode_length rest
    simp only [base64urlEncode, List.length_append, List.length_cons]
    simp [base64Chunk]
    omega

/-- Characters of the base64url alphabet are unreserved. -/
theorem base64Alphabet_unreserved : ∀ c ∈ base64Alphabet, isUnreservedChar c = true := by
  decide

/-- Percent-encoding characters that are all unreserved is the identity. -/
theorem percentEncodeL_of_unreserved :
    ∀ {l : List Char}, (∀ c ∈ l, isUnreservedChar c = true) → percentEncodeL l = l := by
  intro l
  induction l with
  | nil => intro _; rfl
  | cons c rest ih =>
    intro h
    have hc : isUnreservedChar c = true := h c (List.mem_cons_self c rest)
    simp only [percentEncodeL, List.map_cons, List.flatten_cons, percentEncodeChar, hc, if_true]
    have := ih fun x hx => h x (List.mem_cons_of_mem c hx)
    simp only [percentEncodeL] at this
    rw [this]
    rfl

/-- Every character the percent encoder emits is unreserved, `%`, or a
hex digit. -/
theorem mem_percentEncodeL {c : Char} :
    ∀ {l : List Char}, c ∈ percentEncodeL l →
      isUnreservedChar c = true ∨ c = '%' ∨ c ∈ hexDigitChars := by
  intro l
  induction l with
  | nil => intro h; simp [percentEncodeL] at h
  | cons x rest ih =>
    intro h
    simp only [percentEncodeL, List.map_cons, List.flatten_cons, List.mem_append] at h
    rcases h with h | h
    · by_cases hx : isUnreservedChar x
      · simp [percentEncodeChar, hx] at h
        subst h
        exact Or.inl hx
      · simp only [percentEncodeChar, hx, Bool.false_eq_true, if_false, List.mem_cons,
          List.not_mem_nil, or_false] at h
        rcases h with h | h | h
        · exact Or.inr (Or.inl h)
        · rw [h]; exact Or.inr (Or.inr (hexDigit_mem _))
        · rw [h]; exact Or.inr (Or.inr (hexDigit_mem _))
    · exact ih h

/-- Separator-style characters (`&`, `=`, `?`, `/`, `:`, `#`) never
appear in percent-encoded output. -/
theorem percentEncodeL_no_sep {x : Char} {l : List Char}
    (hx : isUnreservedChar x = false ∧ x ≠ '%' ∧ x ∉ hexDigitChars) :
    x ∉ percentEncodeL l := by
  intro hmem
  rcases mem_percentEncodeL hmem with h | h | h
  · rw [hx.1] at h; exact Bool.false_ne_true h
  · exact hx.2.1 h
  · exact hx.2.2 h

/-- `splitOnCharList` never returns the empty list. -/
theorem splitOnCharList_ne_nil (sep : Char) : ∀ (l : List Char), splitOnCharList sep l ≠ []
  | [] => by simp [splitOnCharList]
  | c :: rest => by
    rw [splitOnCharList]
    rcases h : splitOnCharList sep rest with _ | ⟨cur, parts⟩
    · simp
    · by_cases hc : c = sep <;> simp [hc]

/-- Splitting a list that avoids the separator returns the singleton. -/
theorem splitOnCharList_of_not_mem {sep : Char} :
    ∀ {l : List Char}, sep ∉ l → splitOnCharList sep l = [l] := by
  intro l
  induction l with
  | nil => intro _; rfl
  | cons c rest ih =>
    intro h
    have hc : ¬ c = sep := fun hce => h (hce ▸ List.mem_cons_self c rest)
    have hrest : sep ∉ rest := fun hr => h (List.mem_cons_of_mem c hr)
    rw [splitOnCharList, ih hrest]
    simp [hc]

/-- Splitting at the first separator occurrence peels off the head part. -/
theorem splitOnCharList_append {sep : Char} (ys : List Char) :
    ∀ {xs : List Char}, sep ∉ xs →
      splitOnCharList sep (xs ++ sep :: ys) = xs :: splitOnCharList sep ys := by
  intro xs
  induction xs with
  | nil =>
    intro _
    rcases h : splitOnCharList sep ys with _ | ⟨cur, parts⟩
    · exact absurd h (splitOnCharList_ne_nil sep ys)
    · simp [splitOnCharList, h]
  | cons c rest ih =>
    intro h
    have hc : ¬ c = sep := fun hce => h (hce ▸ List.mem_cons_self c rest)
    have hrest : sep ∉ rest := fun hr => h (List.mem_cons_of_mem c hr)
    rw [List.cons_append, splitOnCharList, ih hrest]
    simp [hc]

/-- Splitting a separator-joined list of separator-free parts recovers
the parts. -/
theorem splitOnCharList_joinChar {sep : Char} :
    ∀ (parts : List (List Char)), parts ≠ [] →
      (∀ p ∈ parts, sep ∉ p) →
      splitOnCharList sep (joinChar sep parts) = parts
  | [], h, _ => absurd rfl h
  | [x], _, h => by
    rw [joinChar, splitOnCharList_of_not_mem (h x (List.mem_cons_self x []))]
  | x :: y :: rest, _, h => by
    rw [joinChar, splitOnCharList_append _ (h x (List.mem_cons_self x (y :: rest)))]
    rw [splitOnCharList_joinChar (y :: rest) (by simp)
      (fun p hp => h p (List.mem_cons_of_mem x hp))]

/-- `takeWhile` up to a separator after separator-free characters. -/
theorem takeWhile_until_sep {m : Char} :
    ∀ {xs : List Char} (ys : List Char), (∀ c ∈ xs, c ≠ m) →
      (xs ++ m :: ys).takeWhile (fun c => c != m) = xs := by
  intro xs
  induction xs with
  | nil =>
    intro ys _
    simp [List.takeWhile]
  | cons c rest ih =>
    intro ys h
    have hc : (c != m) = true := by
      simp only [bne_iff_ne, ne_eq]
      exact h c (List.mem_cons_self c rest)
    simp only [List.cons_append, List.takeWhile_cons, hc, if_true]
    rw [ih ys fun d hd => h d (List.mem_cons_of_mem c hd)]

/-- `dropWhile` up to a separator after separator-free characters. -/
theorem dropWhile_until_sep {m : Char} :
    ∀ {xs : List Char} (ys : List Char), (∀ c ∈ xs, c ≠ m) →
      (xs ++ m :: ys).dropWhile (fun c => c != m) = m :: ys := by
  intro xs
  induction xs with
  | nil =>
    intro ys _
    simp [List.dropWhile]
  | cons c rest ih =>
    intro ys h
    have hc : (c != m) = true := by
      simp only [bne_iff_ne, ne_eq]
      exact h c (List.mem_cons_self c rest)
    simp only [List.cons_append, List.dropWhile_cons, hc, if_true]
    exact ih ys fun d hd => h d (List.mem_cons_of_mem c hd)

/-- Separator characters of the query syntax never appear in
percent-encoded output (instances of `percentEncodeL_no_sep`). -/
theorem amp_not_mem_percentEncodeL {l : List Char} : '&' ∉ percentEncodeL l :=
  percentEncodeL_no_sep (by decide)

/-- The `=` separator never appears in percent-encoded output. -/
theorem eq_not_mem_percentEncodeL {l : List Char} : '=' ∉ percentEncodeL l :=
  percentEncodeL_no_sep (by decide)

/-- Parsing the rendered query recovers the percent-encoded pairs. -/
theorem parseQueryChars_renderQueryChars (ps : List (String × String)) (hne : ps ≠ []) :
    parseQueryChars (renderQueryChars ps) =
      ps.map fun p => ((⟨percentEncodeL p.1.data⟩ : String), (⟨percentEncodeL p.2.data⟩ : String)) := by
  unfold parseQueryChars renderQueryChars
  rw [splitOnCharList_joinChar (ps.map renderPairChars) (by simpa using hne) ?hsep]
  case hsep =>
    intro p hp
    rcases List.mem_map.mp hp with ⟨q, _, rfl⟩
    intro hmem
    rw [renderPairChars] at hmem
    rcases List.mem_append.mp hmem with h | h
    · exact amp_not_mem_percentEncodeL h
    · rcases List.mem_cons.mp h with h | h
      · exact absurd h (by decide)
      · exact amp_not_mem_percentEncodeL h
  rw [List.map_map]
  apply List.map_congr_left
  intro p _
  have hk : ∀ c ∈ percentEncodeL p.1.data, c ≠ '=' :=
    fun c hc hce => eq_not_mem_percentEncodeL (hce ▸ hc)
  simp only [Function.comp_apply, renderPairChars]
  rw [takeWhile_until_sep _ hk, dropWhile_until_sep _ hk]
  simp

/-- Every character the base64url encoder emits is unreserved. -/
theorem tokenUrlsafe_unreserved (rand : List Nat) :
    ∀ c ∈ (tokenUrlsafe rand).data, isUnreservedChar c = true :=
  fun c hc => base64Alphabet_unreserved c (base64urlEncode_mem rand c hc)

/-- The query pairs of an authorize URL built over any parameter list. -/
theorem queryPairsOf_authorize_url (ps : List (String × String)) (hne : ps ≠ []) :
    queryPairsOfUrl (atlassianAuthorizeUrl ++ "?" ++ renderQuery ps) =
      ps.map fun p => ((⟨percentEncodeL p.1.data⟩ : String), (⟨percentEncodeL p.2.data⟩ : String)) := by
  have h1 : urlQueryCharsOf (atlassianAuthorizeUrl ++ "?" ++ renderQuery ps) = renderQueryChars ps := rfl
  rw [queryPairsOfUrl, h1, parseQueryChars_renderQueryChars ps hne]

/-- C9: with `ATLASSIAN_CLIENT_ID` and `ATLASSIAN_REDIRECT_URI`
configured, `atlassian_login` returns a 302 redirect to
`https://auth.atlassian.com/authorize` whose query carries `client_id`,
`response_type=code`, `prompt=consent` and a state value longer than 10
characters, and that state value is recorded in the state store the call
leaves behind. -/
theorem login_redirect_structure
    (cfg : OAuthConfig) (rand : List Nat) (now : ℚ) (store : StateStore)
    (hid : optTruthy cfg.clientId = true)
    (huri : optTruthy cfg.redirectUri = true)
    (hrand : rand.length = 24) :
    (atlassianLogin cfg rand now store).1.status = 302 ∧
    ∃ loc,
      (atlassianLogin cfg rand now store).1.body = Body.redirect loc ∧
      urlSchemeOf loc = "https" ∧
      urlHostOf loc = "auth.atlassian.com" ∧
      urlPathOf loc = "/authorize" ∧
      (queryPairsOfUrl loc).lookup "client_id" = some (percentEncode (cfg.clientId.getD "")) ∧
      (queryPairsOfUrl loc).lookup "response_type" = some "code" ∧
      (queryPairsOfUrl loc).lookup "prompt" = some "consent" ∧
      (queryPairsOfUrl loc).lookup "state" = some (tokenUrlsafe rand) ∧
      10 < (tokenUrlsafe rand).length ∧
      (atlassianLogin cfg rand now store).2.lookup (tokenUrlsafe rand) =
        some (now + STATE_TTL_SECONDS) := by
  have hcond : (!optTruthy cfg.clientId || !optTruthy cfg.redirectUri) = false := by
    rw [hid, huri]
    rfl
  unfold atlassianLogin
  simp only [hcond, Bool.false_eq_true, if_false]
  refine ⟨by trivial, ?_⟩
  refine ⟨_, rfl, rfl, rfl, rfl, ?_, ?_, ?_, ?_, ?_, ?_⟩
  · rw [queryPairsOf_authorize_url _ (by simp)]
    rfl
  · rw [queryPairsOf_authorize_url _ (by simp)]
    rfl
  · rw [queryPairsOf_authorize_url _ (by simp)]
    rfl
  · rw [queryPairsOf_authorize_url _ (by simp)]
    have hid2 : percentEncodeL (tokenUrlsafe rand).data = (tokenUrlsafe rand).data :=
      percentEncodeL_of_unreserved (tokenUrlsafe_unreserved rand)
    trans some (⟨percentEncodeL (tokenUrlsafe rand).data⟩ : String)
    · rfl
    · rw [hid2]
  · have hlen := base64urlEncode_length rand
    rw [hrand] at hlen
    have hdl : (tokenUrlsafe rand).length = (base64urlEncode rand).length := rfl
    omega
  · dsimp only [newState, storeInsert]
    simp [List.lookup]

/-- Witness for C9 at a concrete configuration and random draw. -/
theorem login_redirect_structure_witness :
    optTruthy (OAuthConfig.mk (some "test-client-id") (some "secret") (some "http://localhost/cb")).clientId = true ∧
    optTruthy (OAuthConfig.mk (some "test-client-id") (some "secret") (some "http://localhost/cb")).redirectUri = true ∧
    (List.range 24).length = 24 ∧
    ((atlassianLogin (OAuthConfig.mk (some "test-client-id") (some "secret") (some "http://localhost/cb")) (List.range 24) 0 []).1.status = 302 ∧
     ∃ loc,
       (atlassianLogin (OAuthConfig.mk (some "test-client-id") (some "secret") (some "http://localhost/cb")) (List.range 24) 0 []).1.body = Body.redirect loc ∧
       urlSchemeOf loc = "https" ∧
       urlHostOf loc = "auth.atlassian.com" ∧
       urlPathOf loc = "/authorize" ∧
       (queryPairsOfUrl loc).lookup "client_id" =
         some (percentEncode ((OAuthConfig.mk (some "test-client-id") (some "secret") (some "http://localhost/cb")).clientId.getD "")) ∧
       (queryPairsOfUrl loc).lookup "response_type" = some "code" ∧
       (queryPairsOfUrl loc).lookup "prompt" = some "consent" ∧
       (queryPairsOfUrl loc).lookup "state" = some (tokenUrlsafe (List.range 24)) ∧
       10 < (tokenUrlsafe (List.range 24)).length ∧
       (atlassianLogin (OAuthConfig.mk (some "test-client-id") (some "secret") (some "http://localhost/cb")) (List.range 24) 0 []).2.lookup (tokenUrlsafe (List.range 24)) =
         some (0 + STATE_TTL_SECONDS)) :=
  ⟨by decide, by decide, by decide,
   login_redirect_structure
     (OAuthConfig.mk (some "test-client-id") (some "secret") (some "http://localhost/cb"))
     (List.range 24) 0 [] (by decide) (by decide) (by decide)⟩

/-! ## Atlassian OAuth callback (`app/main.py` lines 262-357)

`atlassian_callback(code, state, format)` validates configuration and
parameters, consumes the state token, exchanges the code at the token
endpoint and answers with an HTML page or a JSON summary.  The outcome
of the outbound POST is passed in as an `ExchangeOutcome`; the result
records the POSTed payload (`none` when no outbound call was made). -/

/-! Python `str()` of a decoded JSON value (`repr` for nested values);
string escaping inside `repr` is not modelled — the bodies involved
contain no quotes. -/

mutual

/-- Python `repr` of a decoded JSON value. -/
def pyRepr : Json → String
  | .null => "None"
  | .bool true => "True"
  | .bool false => "False"
  | .num n => toString n
  | .str s => "\x27" ++ s ++ "\x27"
  | .arr l => "[" ++ pyReprList l ++ "]"
  | .obj fields => "\x7b" ++ pyReprFields fields ++ "\x7d"

/-- Comma-separated `repr` of list elements. -/
def pyReprList : List Json → String
  | [] => ""
  | [x] => pyRepr x
  | x :: y :: rest => pyRepr x ++ ", " ++ pyReprList (y :: rest)

/-- Comma-separated `repr` of dict items. -/
def pyReprFields : List (String × Json) → String
  | [] => ""
  | [(k, v)] => "\x27" ++ k ++ "\x27: " ++ pyRepr v
  | (k, v) :: y :: rest => "\x27" ++ k ++ "\x27: " ++ pyRepr v ++ ", " ++ pyReprFields (y :: rest)

end

/-- Outcome of the POST to the token endpoint: an HTTP response (with
its JSON-decoded body when decodable, and raw text), or a
transport-level `httpx.HTTPError`. -/
inductive ExchangeOutcome where
  | response (status : Nat) (jsonBody : Option Json) (text : String)
  | transportError (msg : String)

/-- The process-wide mutable state the handlers can touch.  `tokenCache`
mirrors the `_token_cache` dict the repository's tests reset and inspect
(`tests/conftest.py`, `tests/test_oauth_callback.py`); `app/main.py`
itself defines no token cache, so the embedded handler below never
touches this field — which is exactly what claim C2 is about. -/
structure World where
  stateStore : StateStore
  tokenCache : List (String × Json)

/-- Result of a callback invocation: the HTTP response, the state left
behind, and the JSON payload POSTed to the token endpoint (`none` when
the handler returned before any outbound call). -/
structure CallbackResult where
  resp : Response
  world : World
  tokenRequest : Option Json

/-- The success page returned for `format=html`. -/
def atlassianCallbackSuccessHtml : String :=
  "\n            <h3>Atlassian OAuth Success</h3>\n            <p>The authorization code was exchanged for tokens successfully.</p>\n            <p>You can close this window and return to the app.</p>\n        "

/-- `atlassian_callback(code, state, format)`. -/
def atlassianCallback (cfg : OAuthConfig) (code state fmt : Option String)
    (now : ℚ) (exchange : ExchangeOutcome) (w : World) : CallbackResult :=
  let format := fmt.getD "html"
  if !optTruthy cfg.clientId || !optTruthy cfg.clientSecret || !optTruthy cfg.redirectUri then
    let msg := "ATLASSIAN_CLIENT_ID, ATLASSIAN_CLIENT_SECRET, and ATLASSIAN_REDIRECT_URI must be set."
    if format = "json" then
      ⟨⟨500, .json (.obj [("error", .str "Server misconfiguration"), ("detail", .str msg)])⟩, w, none⟩
    else
      ⟨⟨500, .html ("<h3>Server misconfiguration</h3><p>" ++ msg ++ "</p>")⟩, w, none⟩
  else if !optTruthy code || !optTruthy state then
    if format = "json" then
      ⟨⟨400, .json (.obj [("error", .str "Invalid request"), ("detail", .str "Missing code or state")])⟩, w, none⟩
    else
      ⟨⟨400, .html "<h3>Invalid request</h3><p>Missing code or state.</p>"⟩, w, none⟩
  else
    let v := validateState state now w.stateStore
    let w1 : World := { w with stateStore := v.2 }
    if !v.1 then
      if format = "json" then
        ⟨⟨400, .json (.obj [("error", .str "Invalid state"), ("detail", .str "State is invalid or expired")])⟩, w1, none⟩
      else
        ⟨⟨400, .html "<h3>Invalid state</h3><p>State is invalid or expired.</p>"⟩, w1, none⟩
    else
      let payload : Json := .obj
        [("grant_type", .str "authorization_code"),
         ("client_id", .str (cfg.clientId.getD "")),
         ("client_secret", .str (cfg.clientSecret.getD "")),
         ("code", .str (code.getD "")),
         ("redirect_uri", .str (cfg.redirectUri.getD ""))]
      match exchange with
      | .transportError emsg =>
        if format = "json" then
          ⟨⟨502, .json (.obj [("error", .str "Upstream error"), ("detail", .str emsg)])⟩, w1, some payload⟩
        else
          ⟨⟨502, .html ("<h3>Upstream error</h3><pre>" ++ emsg ++ "</pre>")⟩, w1, some payload⟩
      | .response st jb txt =>
        if st ≠ 200 then
          let detail := jb.getD (.obj [("text", .str txt)])
          if format = "json" then
            ⟨⟨st, .json (.obj [("error", .str "Token exchange failed"), ("detail", detail)])⟩, w1, some payload⟩
          else
            ⟨⟨st, .html ("<h3>Token exchange failed</h3><pre>" ++ pyRepr detail ++ "</pre>")⟩, w1, some payload⟩
        else
          match jb with
          | none =>
            -- `resp.json()` raising on an undecodable 200 body escapes the
            -- `except httpx.HTTPError` clause; the framework answers 500.
            ⟨⟨500, .html "Internal Server Error"⟩, w1, some payload⟩
          | some tokenData =>
            if format = "json" then
              let safe : Json := .obj
                [("token_type", (tokenData.get "token_type").getD .null),
                 ("expires_in", (tokenData.get "expires_in").getD .null),
                 ("scope", (tokenData.get "scope").getD .null),
                 ("access_token_present", .bool (((tokenData.get "access_token").getD .null).pyTruthy)),
                 ("refresh_token_present", .bool (((tokenData.get "refresh_token").getD .null).pyTruthy))]
              ⟨⟨200, .json (.obj [("success", .bool true), ("tokens", safe)])⟩, w1, some payload⟩
            else
              ⟨⟨200, .html atlassianCallbackSuccessHtml⟩, w1, some payload⟩

/-- C6: with configuration present, a callback whose `code` or `state`
query parameter is absent or empty answers 400 and makes no outbound
call (the token endpoint is never contacted). -/
theorem callback_missing_params_no_network
    (cfg : OAuthConfig) (code state fmt : Option String) (now : ℚ)
    (ex : ExchangeOutcome) (w : World)
    (hid : optTruthy cfg.clientId = true)
    (hsec : optTruthy cfg.clientSecret = true)
    (huri : optTruthy cfg.redirectUri = true)
    (hmiss : optTruthy code = false ∨ optTruthy state = false) :
    (atlassianCallback cfg code state fmt now ex w).resp.status = 400 ∧
    (atlassianCallback cfg code state fmt now ex w).tokenRequest = none := by
  have h1 : (!optTruthy cfg.clientId || !optTruthy cfg.clientSecret || !optTruthy cfg.redirectUri) = false := by
    rw [hid, hsec, huri]
    rfl
  have h2 : (!optTruthy code || !optTruthy state) = true := by
    rcases hmiss with h | h <;> rw [h] <;> simp
  unfold atlassianCallback
  simp only [h1, h2, Bool.false_eq_true, if_false, if_true]
  by_cases hfmt : fmt.getD "html" = "json" <;> simp [hfmt]

/-- Witness for C6: configured server, empty `code`, present state. -/
theorem callback_missing_params_no_network_witness :
    optTruthy (some "test-client-id") = true ∧
    optTruthy (some "") = false ∧
    ((atlassianCallback (OAuthConfig.mk (some "test-client-id") (some "test-client-secret") (some "http://testserver/cb"))
        (some "") (some "valid-state-token") (some "json") 0
        (ExchangeOutcome.response 200 none "") (World.mk [("valid-state-token", 9999999999)] [])).resp.status = 400 ∧
     (atlassianCallback (OAuthConfig.mk (some "test-client-id") (some "test-client-secret") (some "http://testserver/cb"))
        (some "") (some "valid-state-token") (some "json") 0
        (ExchangeOutcome.response 200 none "") (World.mk [("valid-state-token", 9999999999)] [])).tokenRequest = none) :=
  ⟨by decide, by decide,
   callback_missing_params_no_network _ _ _ _ _ _ _ (by decide) (by decide) (by decide) (Or.inl (by decide))⟩

/-- C8: after a consumed state, a non-200 token-endpoint response with
body `b` is surfaced with the upstream status and `b` wrapped under a
"Token exchange failed" error, and a transport-level `httpx.HTTPError`
is surfaced as 502. -/
theorem callback_token_exchange_error_propagation
    (cfg : OAuthConfig) (code state fmt : Option String) (now : ℚ) (w : World)
    (hid : optTruthy cfg.clientId = true)
    (hsec : optTruthy cfg.clientSecret = true)
    (huri : optTruthy cfg.redirectUri = true)
    (hcode : optTruthy code = true)
    (hstate : optTruthy state = true)
    (hvalid : (validateState state now w.stateStore).1 = true) :
    (∀ (s : Nat) (b : Json) (txt : String), s ≠ 200 →
      (atlassianCallback cfg code state fmt now (.response s (some b) txt) w).resp.status = s ∧
      (atlassianCallback cfg code state fmt now (.response s (some b) txt) w).resp.body =
        (if fmt.getD "html" = "json" then
          Body.json (.obj [("error", .str "Token exchange failed"), ("detail", b)])
        else
          Body.html ("<h3>Token exchange failed</h3><pre>" ++ pyRepr b ++ "</pre>"))) ∧
    (∀ emsg : String,
      (atlassianCallback cfg code state fmt now (.transportError emsg) w).resp.status = 502) := by
  have h1 : (!optTruthy cfg.clientId || !optTruthy cfg.clientSecret || !optTruthy cfg.redirectUri) = false := by
    rw [hid, hsec, huri]
    rfl
  have h2 : (!optTruthy code || !optTruthy state) = false := by
    rw [hcode, hstate]
    rfl
  have h3 : (!(validateState state now w.stateStore).1) = false := by
    rw [hvalid]
    rfl
  constructor
  · intro s b txt hs
    unfold atlassianCallback
    simp only [h1, h2, h3, Bool.false_eq_true, if_false]
    rw [if_pos hs]
    by_cases hfmt : fmt.getD "html" = "json" <;> simp [hfmt]
  · intro emsg
    unfold atlassianCallback
    simp only [h1, h2, h3, Bool.false_eq_true, if_false]
    by_cases hfmt : fmt.getD "html" = "json" <;> simp [hfmt]

/-- Witness for C8: a 400 `invalid_grant` upstream response is forwarded
as 400 wrapped under "Token exchange failed", and a transport error
yields 502. -/
theorem callback_token_exchange_error_propagation_witness :
    (validateState (some "valid-state-token") 0 [("valid-state-token", 9999999999)]).1 = true ∧
    (400 : Nat) ≠ 200 ∧
    ((atlassianCallback (OAuthConfig.mk (some "test-client-id") (some "test-client-secret") (some "http://testserver/cb"))
        (some "bad") (some "valid-state-token") (some "json") 0
        (.response 400 (some (.obj [("error", .str "invalid_grant")])) "bad request")
        (World.mk [("valid-state-token", 9999999999)] [])).resp.status = 400 ∧
     (atlassianCallback (OAuthConfig.mk (some "test-client-id") (some "test-client-secret") (some "http://testserver/cb"))
        (some "bad") (some "valid-state-token") (some "json") 0
        (.response 400 (some (.obj [("error", .str "invalid_grant")])) "bad request")
        (World.mk [("valid-state-token", 9999999999)] [])).resp.body =
        (if (some "json").getD "html" = "json" then
          Body.json (.obj [("error", .str "Token exchange failed"), ("detail", .obj [("error", .str "invalid_grant")])])
        else
          Body.html ("<h3>Token exchange failed</h3><pre>" ++ pyRepr (.obj [("error", .str "invalid_grant")]) ++ "</pre>"))) ∧
    (atlassianCallback (OAuthConfig.mk (some "test-client-id") (some "test-client-secret") (some "http://testserver/cb"))
        (some "bad") (some "valid-state-token") (some "html") 0
        (.transportError "network error")
        (World.mk [("valid-state-token", 9999999999)] [])).resp.status = 502 :=
  ⟨by decide, by decide,
   (callback_token_exchange_error_propagation _ _ _ (some "json") _ _
      (by decide) (by decide) (by decide) (by decide) (by decide) (by decide)).1
     400 (.obj [("error", .str "invalid_grant")]) "bad request" (by decide),
   (callback_token_exchange_error_propagation _ _ _ (some "html") _ _
      (by decide) (by decide) (by decide) (by decide) (by decide) (by decide)).2
     "network error"⟩

/-- The token record the mocked token endpoint returns in the
repository's own success test
(`tests/test_oauth_callback.py::test_callback_success_json_sets_token_cache_and_returns_safe_fields`). -/
def successTokenData : Json :=
  .obj [("token_type", .str "Bearer"),
        ("access_token", .str "access_test"),
        ("refresh_token", .str "refresh_test"),
        ("expires_in", .num 3600),
        ("scope", .str "read:jira-user")]

/-- C2 (evaluation at the failing input): a callback with a valid
unconsumed state and a 200 token-endpoint response returns its
confirmation (status 200), yet the process-wide token cache is left
empty — `app/main.py` never stores the returned token record, while the
repository's tests assert `_token_cache` holds it. -/
theorem callback_success_does_not_store_tokens :
    (atlassianCallback
      (OAuthConfig.mk (some "test-client-id") (some "test-client-secret") (some "http://testserver/cb"))
      (some "abc123") (some "valid-state-token") (some "json") 0
      (.response 200 (some successTokenData) "")
      (World.mk [("valid-state-token", 9999999999)] [])).resp.status = 200 ∧
    (atlassianCallback
      (OAuthConfig.mk (some "test-client-id") (some "test-client-secret") (some "http://testserver/cb"))
      (some "abc123") (some "valid-state-token") (some "json") 0
      (.response 200 (some successTokenData) "")
      (World.mk [("valid-state-token", 9999999999)] [])).world.tokenCache = [] :=
  ⟨rfl, rfl⟩

/-- C4: the JSON confirmation reveals only presence booleans: two
callback runs whose token-endpoint responses differ only in the
(non-empty) `access_token` and `refresh_token` string values produce
identical results, so the raw token values never reach the response. -/
theorem callback_json_confirmation_token_noninterference
    (cfg : OAuthConfig) (code state : Option String) (now : ℚ) (w : World)
    (td1 td2 : Json) (txt : String) (a1 a2 r1 r2 : String)
    (hid : optTruthy cfg.clientId = true)
    (hsec : optTruthy cfg.clientSecret = true)
    (huri : optTruthy cfg.redirectUri = true)
    (hcode : optTruthy code = true)
    (hstate : optTruthy state = true)
    (hvalid : (validateState state now w.stateStore).1 = true)
    (hsame : ∀ k, k ≠ "access_token" → k ≠ "refresh_token" → td1.get k = td2.get k)
    (ha1 : td1.get "access_token" = some (.str a1)) (ha1n : a1 ≠ "")
    (ha2 : td2.get "access_token" = some (.str a2)) (ha2n : a2 ≠ "")
    (hr1 : td1.get "refresh_token" = some (.str r1)) (hr1n : r1 ≠ "")
    (hr2 : td2.get "refresh_token" = some (.str r2)) (hr2n : r2 ≠ "") :
    atlassianCallback cfg code state (some "json") now (.response 200 (some td1) txt) w =
    atlassianCallback cfg code state (some "json") now (.response 200 (some td2) txt) w := by
  have h1 : (!optTruthy cfg.clientId || !optTruthy cfg.clientSecret || !optTruthy cfg.redirectUri) = false := by
    rw [hid, hsec, huri]
    rfl
  have h2 : (!optTruthy code || !optTruthy state) = false := by
    rw [hcode, hstate]
    rfl
  have h3 : (!(validateState state now w.stateStore).1) = false := by
    rw [hvalid]
    rfl
  have htt := hsame "token_type" (by decide) (by decide)
  have hei := hsame "expires_in" (by decide) (by decide)
  have hsc := hsame "scope" (by decide) (by decide)
  have hb1 : (Json.str a1).pyTruthy = true := by
    simp [Json.pyTruthy]
    exact ha1n
  have hb2 : (Json.str a2).pyTruthy = true := by
    simp [Json.pyTruthy]
    exact ha2n
  have hb3 : (Json.str r1).pyTruthy = true := by
    simp [Json.pyTruthy]
    exact hr1n
  have hb4 : (Json.str r2).pyTruthy = true := by
    simp [Json.pyTruthy]
    exact hr2n
  unfold atlassianCallback
  simp only [h1, h2, h3, Bool.false_eq_true, if_false]
  simp only [htt, hei, hsc, ha1, ha2, hr1, hr2, Option.getD_some, hb1, hb2, hb3, hb4]
  simp

/-- Witness for C4: two concrete token records differing only in the
token values give the same callback result. -/
theorem callback_json_confirmation_token_noninterference_witness :
    (validateState (some "valid-state-token") 0 [("valid-state-token", 9999999999)]).1 = true ∧
    (Json.obj [("token_type", .str "Bearer"), ("access_token", .str "AAA"), ("refresh_token", .str "RRR")]).get "access_token" = some (.str "AAA") ∧
    ("AAA" : String) ≠ "" ∧
    atlassianCallback (OAuthConfig.mk (some "test-client-id") (some "test-client-secret") (some "http://testserver/cb"))
      (some "abc123") (some "valid-state-token") (some "json") 0
      (.response 200 (some (Json.obj [("token_type", .str "Bearer"), ("access_token", .str "AAA"), ("refresh_token", .str "RRR")])) "")
      (World.mk [("valid-state-token", 9999999999)] []) =
    atlassianCallback (OAuthConfig.mk (some "test-client-id") (some "test-client-secret") (some "http://testserver/cb"))
      (some "abc123") (some "valid-state-token") (some "json") 0
      (.response 200 (some (Json.obj [("token_type", .str "Bearer"), ("access_token", .str "BBB"), ("refresh_token", .str "SSS")])) "")
      (World.mk [("valid-state-token", 9999999999)] []) := by
  refine ⟨by decide, rfl, by decide, ?_⟩
  have hs : ∀ k, k ≠ "access_token" → k ≠ "refresh_token" →
      (Json.obj [("token_type", .str "Bearer"), ("access_token", .str "AAA"), ("refresh_token", .str "RRR")]).get k =
      (Json.obj [("token_type", .str "Bearer"), ("access_token", .str "BBB"), ("refresh_token", .str "SSS")]).get k := by
    intro k h1 h2
    have b1 : (k == "access_token") = false := by
      simp [beq_iff_eq]
      exact h1
    have b2 : (k == "refresh_token") = false := by
      simp [beq_iff_eq]
      exact h2
    simp [Json.get, List.lookup, b1, b2]
  exact callback_json_confirmation_token_noninterference
    (OAuthConfig.mk (some "test-client-id") (some "test-client-secret") (some "http://testserver/cb"))
    (some "abc123") (some "valid-state-token") 0
    (World.mk [("valid-state-token", 9999999999)] [])
    (Json.obj [("token_type", .str "Bearer"), ("access_token", .str "AAA"), ("refresh_token", .str "RRR")])
    (Json.obj [("token_type", .str "Bearer"), ("access_token", .str "BBB"), ("refresh_token", .str "SSS")])
    "" "AAA" "BBB" "RRR" "SSS"
    (by decide) (by decide) (by decide) (by decide) (by decide) (by decide)
    hs rfl (by decide) rfl (by decide) rfl (by decide) rfl (by decide)

/-! ## Confluence service (`src/api/services/confluence.py`)

`ConfluenceService.get_page` / `update_page`.  The upstream HTTP
response is passed in as an `UpstreamResponse`; `update_page` is
embedded up to the payload it PUTs upstream (the subsequent label
update and re-fetch do not affect the claims below).  The exact text of
Python `str(e)` for the caught exceptions is abstracted by the fixed
message strings below; the structured part of every error — the status
code and the descriptive tag — is embedded exactly. -/

/-- An upstream HTTP response: status, JSON-decoded body when decodable,
raw text. -/
structure UpstreamResponse where
  status : Nat
  jsonBody : Option Json
  text : String

/-- A raised `HTTPException`: its status code, and its detail string
split as `tag ++ ": " ++ excMsg` (the services build
`f"<tag>: {str(e)}"`). -/
structure ServiceError where
  statusCode : Nat
  tag : String
  excMsg : String

/-- The full `detail` string of a raised `HTTPException`. -/
def ServiceError.detail (e : ServiceError) : String :=
  e.tag ++ ": " ++ e.excMsg

/-- Stand-in for `str(e)` of an `httpx.HTTPStatusError` raised by
`raise_for_status` (the claims never inspect this text). -/
def httpStatusErrorMsg (status : Nat) : String :=
  "HTTP status error " ++ toString status

/-- Stand-in for `str(e)` of a body-decoding error. -/
def jsonDecodeErrorMsg : String := "response body is not JSON"

/-- Stand-in for `str(e)` of a `KeyError`/`TypeError` during upstream
payload translation. -/
def missingFieldErrorMsg : String := "missing upstream field"

/-- Stand-in for `str(e)` of the nested `HTTPException` raised by
`get_page` inside `update_page`. -/
def nestedGetErrorMsg : String := "get_page failed"

/-- The tag of every `get_page` failure. -/
def confluenceGetPageFailedTag : String := "Failed to get Confluence page"

/-- The tag of every `update_page` failure. -/
def confluenceUpdatePageFailedTag : String := "Failed to update Confluence page"

/-- The default `ConfluenceService` base URL. -/
def confluenceServiceBaseUrl : String := "https://api.atlassian.com/ex/confluence/"

/-- Python f-string interpolation of a decoded JSON value (`str()`:
strings are inserted verbatim, other values via `repr`). -/
def pyFmt : Json → String
  | .str s => s
  | j => pyRepr j

/-- The internal normalized view of an upstream Confluence page, as
`get_page` builds `ConfluencePageResponse`. -/
structure ConfluencePage where
  id : Json
  title : Json
  spaceKey : Json
  body : Json
  pageStatus : String
  url : String
  version : Json
  ancestors : Json
  descendants : Json
  labels : List Json
  createdAt : Json
  updatedAt : Json

/-- `[label["name"] for label in page_data.get("metadata", {}).get("labels", [])]`:
defaults apply only when the keys are missing; a non-dict `metadata` or
non-list `labels` raises (yielding `none`). -/
def confluenceGetLabels (pageData : Json) : Option (List Json) :=
  match pageData.get "metadata" with
  | none => some []
  | some md =>
    match md with
    | .obj _ =>
      match md.get "labels" with
      | none => some []
      | some (.arr ls) => ls.mapM fun lab => lab.get "name"
      | some _ => none
    | _ => none

/-- The `ConfluencePageResponse(...)` construction of `get_page`:
`none` when a required upstream field is missing (Python raises
`KeyError`, caught by the handler). -/
def confluenceTranslatePage (baseUrl : String) (pageData : Json) : Option ConfluencePage :=
  match pageData.get "id", pageData.get "title",
        (pageData.get "space").bind (fun sp => sp.get "key"),
        ((pageData.get "body").bind (fun b => b.get "storage")).bind (fun st => st.get "value"),
        pageData.get "version", pageData.get "created", pageData.get "modified" with
  | some idv, some titlev, some keyv, some bodyv, some versionv, some createdv, some modifiedv =>
    match confluenceGetLabels pageData with
    | none => none
    | some labels =>
      some { id := idv, title := titlev, spaceKey := keyv, body := bodyv,
             pageStatus := "published",
             url := baseUrl ++ "/wiki/spaces/" ++ pyFmt keyv ++ "/pages/" ++ pyFmt idv,
             version := versionv,
             ancestors := (pageData.get "ancestors").getD (.arr []),
             descendants := (pageData.get "descendants").getD (.obj []),
             labels := labels,
             createdAt := createdv, updatedAt := modifiedv }
  | _, _, _, _, _, _, _ => none

/-- `ConfluenceService.get_page`: on any failure — non-2xx upstream
status (`raise_for_status`), undecodable body, or missing fields — the
handler raises `HTTPException(status.HTTP_404_NOT_FOUND,
f"Failed to get Confluence page: {str(e)}")`. -/
def confluenceGetPage (baseUrl pageId : String) (resp : UpstreamResponse) :
    Except ServiceError ConfluencePage :=
  if ¬ (200 ≤ resp.status ∧ resp.status ≤ 299) then
    .error ⟨404, confluenceGetPageFailedTag, httpStatusErrorMsg resp.status⟩
  else
    match resp.jsonBody with
    | none => .error ⟨404, confluenceGetPageFailedTag, jsonDecodeErrorMsg⟩
    | some pd =>
      match confluenceTranslatePage baseUrl pd with
      | none => .error ⟨404, confluenceGetPageFailedTag, missingFieldErrorMsg⟩
      | some page => .ok page

/-- `PageStatus` enumeration of `models/confluence.py`. -/
inductive PageStatus where
  | draft
  | published
  | archived

/-- `PageStatus.value`. -/
def PageStatus.value : PageStatus → String
  | .draft => "draft"
  | .published => "published"
  | .archived => "archived"

/-- `ConfluencePageUpdate` request model (all fields optional). -/
structure ConfluencePageUpdate where
  title : Option String
  body : Option String
  status : Option PageStatus
  labels : Option (List String)
  versionComment : Option String

/-- The update payload `update_page` builds from the fetched current
page: `{"version": {"number": current + 1}}` plus the supplied optional
fields (`version_comment` lands inside the version dict as `message`).
`none` when `current_page.version["number"]` is not a number (Python
raises on `+ 1`, caught by the handler). -/
def confluenceUpdatePayload (currentPage : ConfluencePage) (upd : ConfluencePageUpdate) :
    Option Json :=
  match currentPage.version.get "number" with
  | some (.num n) =>
    some (.obj (
      [("version", .obj ([("number", .num (n + 1))] ++
         (match upd.versionComment with
          | some c => [("message", Json.str c)]
          | none => [])))] ++
      (match upd.title with
       | some t => [("title", Json.str t)]
       | none => []) ++
      (match upd.body with
       | some b => [("body", Json.obj [("storage", Json.obj
           [("value", Json.str b), ("representation", Json.str "storage")])])]
       | none => []) ++
      (match upd.status with
       | some st => [("status", Json.str st.value)]
       | none => [])))
  | _ => none

/-- `ConfluenceService.update_page`, embedded up to the payload it PUTs
upstream: first fetches the current page via `get_page`, then builds the
versioned update payload; any failure raises
`HTTPException(400, f"Failed to update Confluence page: {str(e)}")`. -/
def confluenceUpdatePage (baseUrl pageId : String) (fetchResp : UpstreamResponse)
    (upd : ConfluencePageUpdate) : Except ServiceError Json :=
  match confluenceGetPage baseUrl pageId fetchResp with
  | .error _ => .error ⟨400, confluenceUpdatePageFailedTag, nestedGetErrorMsg⟩
  | .ok page =>
    match confluenceUpdatePayload page upd with
    | none => .error ⟨400, confluenceUpdatePageFailedTag, missingFieldErrorMsg⟩
    | some payload => .ok payload

/-- Tag of a service call outcome, when it failed. -/
def errTagOf {α : Type} : Except ServiceError α → Option String
  | .error e => some e.tag
  | .ok _ => none

/-- Status code of a service call outcome, when it failed. -/
def errStatusOf {α : Type} : Except ServiceError α → Option Nat
  | .error e => some e.statusCode
  | .ok _ => none

/-- The `number` of the `version` dict submitted in an update payload. -/
def submittedVersionNumber : Except ServiceError Json → Option Json
  | .ok pl => (pl.get "version").bind fun v => v.get "number"
  | .error _ => none

/-- C3: `update_page` first fetches the current page, and the version
number it submits upstream equals the fetched current version number
plus one — for every update request, in particular one supplying only a
new body. -/
theorem confluence_update_submits_version_plus_one
    (baseUrl pageId : String) (fetchResp : UpstreamResponse) (upd : ConfluencePageUpdate)
    (page : ConfluencePage) (n : Int)
    (hfetch : confluenceGetPage baseUrl pageId fetchResp = .ok page)
    (hver : page.version.get "number" = some (.num n)) :
    submittedVersionNumber (confluenceUpdatePage baseUrl pageId fetchResp upd) =
      some (.num (n + 1)) := by
  unfold confluenceUpdatePage
  rw [hfetch]
  dsimp only
  unfold confluenceUpdatePayload
  rw [hver]
  rfl

/-- Witness for C3: a fetched page at version 3 and an update supplying
only a new body submit version 4. -/
theorem confluence_update_submits_version_plus_one_witness :
    confluenceGetPage confluenceServiceBaseUrl "123"
      (UpstreamResponse.mk 200 (some (.obj
        [("id", .str "123"), ("title", .str "Hello"),
         ("space", .obj [("key", .str "SPACE")]),
         ("body", .obj [("storage", .obj [("value", .str "<p>x</p>")])]),
         ("version", .obj [("number", .num 3)]),
         ("created", .str "2024-01-01"), ("modified", .str "2024-01-02")])) "") =
      .ok (ConfluencePage.mk (.str "123") (.str "Hello") (.str "SPACE") (.str "<p>x</p>")
        "published"
        (confluenceServiceBaseUrl ++ "/wiki/spaces/SPACE/pages/123")
        (.obj [("number", .num 3)]) (.arr []) (.obj []) [] (.str "2024-01-01") (.str "2024-01-02")) ∧
    (Json.obj [("number", Json.num 3)]).get "number" = some (.num 3) ∧
    submittedVersionNumber (confluenceUpdatePage confluenceServiceBaseUrl "123"
      (UpstreamResponse.mk 200 (some (.obj
        [("id", .str "123"), ("title", .str "Hello"),
         ("space", .obj [("key", .str "SPACE")]),
         ("body", .obj [("storage", .obj [("value", .str "<p>x</p>")])]),
         ("version", .obj [("number", .num 3)]),
         ("created", .str "2024-01-01"), ("modified", .str "2024-01-02")])) "")
      (ConfluencePageUpdate.mk none (some "<p>Updated</p>") none none none)) =
      some (.num 4) := by
  refine ⟨rfl, rfl, ?_⟩
  exact confluence_update_submits_version_plus_one _ _ _ _ _ 3 rfl rfl

/-- C5 counterexample: on an upstream 404 for get-page, the raised
error's tag is `"Failed to get Confluence page"`, not the
`"Confluence get page failed"` the claim states. -/
theorem confluence_get_page_error_tag_counterexample :
    errTagOf (confluenceGetPage confluenceServiceBaseUrl "999"
        (UpstreamResponse.mk 404 (some (.obj [("err", .str "not found")])) "nf")) =
      some "Failed to get Confluence page" ∧
    errTagOf (confluenceGetPage confluenceServiceBaseUrl "999"
        (UpstreamResponse.mk 404 (some (.obj [("err", .str "not found")])) "nf")) ≠
      some "Confluence get page failed" := by
  refine ⟨rfl, ?_⟩
  intro h
  rw [show errTagOf (confluenceGetPage confluenceServiceBaseUrl "999"
        (UpstreamResponse.mk 404 (some (.obj [("err", .str "not found")])) "nf")) =
      some "Failed to get Confluence page" from rfl] at h
  simp at h

/-- C5 (amended): on an upstream 404 for get-page, `get_page` raises an
`HTTPException` with status 404 whose detail is tagged
`"Failed to get Confluence page"` (the 404 is the handler's fixed
`status.HTTP_404_NOT_FOUND`, which on this input coincides with the
upstream status). -/
theorem confluence_get_page_404_error
    (baseUrl pageId : String) (resp : UpstreamResponse)
    (h : resp.status = 404) :
    errTagOf (confluenceGetPage baseUrl pageId resp) = some "Failed to get Confluence page" ∧
    errStatusOf (confluenceGetPage baseUrl pageId resp) = some 404 := by
  unfold confluenceGetPage
  have hrange : ¬ (200 ≤ resp.status ∧ resp.status ≤ 299) := by
    rw [h]
    omega
  rw [if_pos hrange]
  exact ⟨rfl, rfl⟩

/-- Witness for C5 (amended) at the concrete mocked 404 response. -/
theorem confluence_get_page_404_error_witness :
    (UpstreamResponse.mk 404 (some (.obj [("err", .str "not found")])) "nf").status = 404 ∧
    (errTagOf (confluenceGetPage confluenceServiceBaseUrl "998"
        (UpstreamResponse.mk 404 (some (.obj [("err", .str "not found")])) "nf")) =
      some "Failed to get Confluence page" ∧
     errStatusOf (confluenceGetPage confluenceServiceBaseUrl "998"
        (UpstreamResponse.mk 404 (some (.obj [("err", .str "not found")])) "nf")) =
      some 404) :=
  ⟨rfl, confluence_get_page_404_error confluenceServiceBaseUrl "998" _ rfl⟩

/-! ## Service HTTP-client caching (`src/api/services/jira.py` lines
19-26, `src/api/services/confluence.py` lines 19-26)

`_get_client` creates the `AsyncClient` with the Authorization header of
the access token it is first called with, and returns the cached client
ever after. -/

/-- The `httpx.AsyncClient` as configured by `_get_client`. -/
structure HttpClient where
  baseUrl : String
  authHeader : String

/-- The mutable `self._client` slot of a service instance. -/
structure ServiceClientState where
  client : Option HttpClient

/-- The default `JiraService` base URL. -/
def jiraServiceBaseUrl : String := "https://api.atlassian.com/ex/jira/"

/-- `JiraService._get_client`: create the client on first use, reuse it
afterwards. -/
def jiraGetClient (accessToken : String) (st : ServiceClientState) :
    HttpClient × ServiceClientState :=
  match st.client with
  | none =>
    let c : HttpClient := ⟨jiraServiceBaseUrl, "Bearer " ++ accessToken⟩
    (c, ⟨some c⟩)
  | some c => (c, st)

/-- `ConfluenceService._get_client`: identical caching logic. -/
def confluenceGetClient (accessToken : String) (st : ServiceClientState) :
    HttpClient × ServiceClientState :=
  match st.client with
  | none =>
    let c : HttpClient := ⟨confluenceServiceBaseUrl, "Bearer " ++ accessToken⟩
    (c, ⟨some c⟩)
  | some c => (c, st)

/-- C10: in both services, the client is created once with the first
access token's bearer header; a second operation on the same instance
with a different token still gets the first token's client, and the
cached slot is left unchanged. -/
theorem service_client_caches_first_token
    (t1 t2 : String) (hne : t1 ≠ t2) :
    (jiraGetClient t2 (jiraGetClient t1 ⟨none⟩).2).1.authHeader = "Bearer " ++ t1 ∧
    (jiraGetClient t2 (jiraGetClient t1 ⟨none⟩).2).2 = (jiraGetClient t1 ⟨none⟩).2 ∧
    (confluenceGetClient t2 (confluenceGetClient t1 ⟨none⟩).2).1.authHeader = "Bearer " ++ t1 ∧
    (confluenceGetClient t2 (confluenceGetClient t1 ⟨none⟩).2).2 = (confluenceGetClient t1 ⟨none⟩).2 :=
  ⟨rfl, rfl, rfl, rfl⟩

/-- Witness for C10 with two distinct concrete tokens. -/
theorem service_client_caches_first_token_witness :
    ("token-one" : String) ≠ "token-two" ∧
    (jiraGetClient "token-two" (jiraGetClient "token-one" ⟨none⟩).2).1.authHeader = "Bearer " ++ "token-one" ∧
    (confluenceGetClient "token-two" (confluenceGetClient "token-one" ⟨none⟩).2).1.authHeader = "Bearer " ++ "token-one" :=
  ⟨by decide,
   (service_client_caches_first_token "token-one" "token-two" (by decide)).1,
   (service_client_caches_first_token "token-one" "token-two" (by decide)).2.2.1⟩
